import Mathlib

/-!
Shallow embedding of the TrackMate backend (src/backend/main.py): a thin
HTTP gateway over an external experiment-tracking store plus an assistant
endpoint that linearizes experiment/run data into a prompt for an external
completion provider.

Each HTTP handler is embedded as a pure function parameterized by the
results of its collaborator calls (the Python code is likewise parameterized
by the behaviour of the `mlflow` and `openai` libraries).  Every handler
also returns the ordered list of collaborator calls it made, so that
properties such as "the collaborator is invoked exactly once" or "no
collaborator is invoked before the failure" are expressible.
-/

/-- Request body of POST /experiments/ (pydantic model ExperimentCreate). -/
structure ExperimentCreate where
  name : String
  description : Option String
deriving Repr, DecidableEq

/-- Request body of POST /experiments/{id}/runs/ (pydantic model RunCreate). -/
structure RunCreate where
  run_name : Option String
deriving Repr, DecidableEq

/-- Request body of POST /runs/{id}/params/ (pydantic model Param). -/
structure Param where
  key : String
  value : String
deriving Repr, DecidableEq

/-- Request body of POST /runs/{id}/metrics/ (pydantic model Metric).
Metric values are Python floats on which the backend performs no
arithmetic; they are modelled by exact rationals. -/
structure Metric where
  key : String
  value : Rat
deriving Repr, DecidableEq

/-- Request body of POST /assistant/query (pydantic model AssistantQuery). -/
structure AssistantQuery where
  prompt : String
deriving Repr, DecidableEq

/-- An HTTPException raised by a handler: status code and detail string. -/
structure HTTPError where
  status_code : Nat
  detail : String
deriving Repr, DecidableEq

/-- An experiment record as returned by the store (mlflow Experiment
object: the attributes the backend reads). -/
structure StoreExperiment where
  experiment_id : String
  name : String
  artifact_location : String
deriving Repr, DecidableEq

/-- A run record as returned by the store (mlflow Run object: the
info/data attributes the backend reads in get_run). -/
structure StoreRun where
  run_id : String
  experiment_id : String
  status : String
  start_time : Int
  end_time : Option Int
  params : List (String × String)
  metrics : List (String × Rat)
  tags : List (String × String)
deriving Repr, DecidableEq

/-- One row of the dataframe returned by the search-runs collaborator, as
accessed by the assistant loop (run.run_id, run.status, run.metrics,
run.params); the metrics/params fields are read only to be interpolated
into a string, so they are modelled by their rendered string form. -/
structure RunRow where
  run_id : String
  status : String
  metrics : String
  params : String
deriving Repr, DecidableEq

/-- One choice of a completion response (response.choices[i].text). -/
structure CompletionChoice where
  text : String
deriving Repr, DecidableEq

/-- A completion response (the one attribute the backend reads). -/
structure CompletionResponse where
  choices : List CompletionChoice
deriving Repr, DecidableEq

/-- A collaborator invocation, recorded in the order the handler makes it. -/
inductive CollabCall where
  | createExperiment (name : String) (description : Option String)
  | listExperiments
  | startRun (experiment_id : String) (run_name : Option String)
  | logParam (run_id key value : String)
  | logMetric (run_id key : String) (value : Rat)
  | getRun (run_id : String)
  | searchRuns (experiment_id : String)
  | completionCreate (engine prompt : String) (max_tokens : Nat) (temperature : Rat)
deriving Repr, DecidableEq

/-- Success body of POST /experiments/. -/
structure CreateExperimentResponse where
  experiment_id : String
  name : String
deriving Repr, DecidableEq

/-- One entry of the GET /experiments/ response. -/
structure ExperimentEntry where
  experiment_id : String
  name : String
  artifact_location : String
deriving Repr, DecidableEq

/-- Success body of GET /experiments/. -/
structure ListExperimentsResponse where
  experiments : List ExperimentEntry
deriving Repr, DecidableEq

/-- Success body of POST /experiments/{id}/runs/. -/
structure StartRunResponse where
  run_id : String
  status : String
deriving Repr, DecidableEq

/-- Success body of the param/metric logging endpoints. -/
structure MessageResponse where
  message : String
deriving Repr, DecidableEq

/-- The run_data dict assembled by get_run. -/
structure RunDetail where
  run_id : String
  experiment_id : String
  status : String
  start_time : Int
  end_time : Option Int
  parameters : List (String × String)
  metrics : List (String × Rat)
  tags : List (String × String)
deriving Repr, DecidableEq

/-- Success body of GET /experiments/{experiment_id}/runs/{run_id}/. -/
structure GetRunResponse where
  run : RunDetail
deriving Repr, DecidableEq

/-- Success body of POST /assistant/query. -/
structure AssistantResponse where
  response : String
deriving Repr, DecidableEq

/-- The apostrophe character, used by the logging success messages. -/
def apos : String := String.singleton (Char.ofNat 39)

/-- Handler of POST /experiments/ (main.py lines 62-69): forwards name and
description to the create-experiment call of the store; on success returns the
new id and the request name, on any collaborator failure returns a 400
response carrying the message of the collaborator. -/
def create_experiment (callCreate : String → Option String → Except String String)
    (exp : ExperimentCreate) :
    Except HTTPError CreateExperimentResponse × List CollabCall :=
  (match callCreate exp.name exp.description with
    | Except.ok experiment_id =>
        Except.ok { experiment_id := experiment_id, name := exp.name }
    | Except.error e => Except.error { status_code := 400, detail := e },
   [CollabCall.createExperiment exp.name exp.description])

/-- Handler of GET /experiments/ (main.py lines 71-82): one list call to the
store, mapped to entries of (experiment_id, name, artifact_location). -/
def list_experiments (callList : Except String (List StoreExperiment)) :
    Except HTTPError ListExperimentsResponse × List CollabCall :=
  (match callList with
    | Except.ok experiments =>
        Except.ok { experiments := experiments.map (fun exp =>
          { experiment_id := exp.experiment_id, name := exp.name,
            artifact_location := exp.artifact_location }) }
    | Except.error e => Except.error { status_code := 400, detail := e },
   [CollabCall.listExperiments])

/-- Handler of POST /experiments/{experiment_id}/runs/ (main.py lines
85-92): starts a run in the store; the collaborator yields the (run_id,
status) of the new run. -/
def start_run (callStartRun : String → Option String → Except String (String × String))
    (experiment_id : String) (run : RunCreate) :
    Except HTTPError StartRunResponse × List CollabCall :=
  (match callStartRun experiment_id run.run_name with
    | Except.ok r => Except.ok { run_id := r.1, status := r.2 }
    | Except.error e => Except.error { status_code := 400, detail := e },
   [CollabCall.startRun experiment_id run.run_name])

/-- Handler of POST /runs/{run_id}/params/ (main.py lines 94-102).  The
reopen-run-and-log-param pair of library calls is modelled as one
collaborator operation on (run_id, key, value). -/
def log_param (callLogParam : String → String → String → Except String Unit)
    (run_id : String) (param : Param) :
    Except HTTPError MessageResponse × List CollabCall :=
  (match callLogParam run_id param.key param.value with
    | Except.ok _ =>
        Except.ok { message := "Parameter " ++ apos ++ param.key ++ apos ++ " logged successfully." }
    | Except.error e => Except.error { status_code := 400, detail := e },
   [CollabCall.logParam run_id param.key param.value])

/-- Handler of POST /runs/{run_id}/metrics/ (main.py lines 104-112),
modelled like log_param. -/
def log_metric (callLogMetric : String → String → Rat → Except String Unit)
    (run_id : String) (metric : Metric) :
    Except HTTPError MessageResponse × List CollabCall :=
  (match callLogMetric run_id metric.key metric.value with
    | Except.ok _ =>
        Except.ok { message := "Metric " ++ apos ++ metric.key ++ apos ++ " logged successfully." }
    | Except.error e => Except.error { status_code := 400, detail := e },
   [CollabCall.logMetric run_id metric.key metric.value])

/-- Handler of GET /experiments/{experiment_id}/runs/{run_id}/ (main.py
lines 114-131): fetches the run by run_id only — the experiment_id path
parameter is never passed to the store — and repackages its fields. -/
def get_run (callGetRun : String → Except String StoreRun)
    (experiment_id run_id : String) :
    Except HTTPError GetRunResponse × List CollabCall :=
  (match callGetRun run_id with
    | Except.ok run =>
        Except.ok { run :=
          { run_id := run.run_id, experiment_id := run.experiment_id,
            status := run.status, start_time := run.start_time,
            end_time := run.end_time, parameters := run.params,
            metrics := run.metrics, tags := run.tags } }
    | Except.error e => Except.error { status_code := 400, detail := e },
   [CollabCall.getRun run_id])

/-- Dependency of POST /assistant/query (main.py lines 55-59): reads the
credential from the environment; a missing or empty value (Python
falsiness of None and "") raises a 500 before the handler body runs. -/
def get_openai_api_key (env_key : Option String) : Except HTTPError String :=
  match env_key with
  | none => Except.error { status_code := 500, detail := "OpenAI API key not configured." }
  | some k =>
      if k = "" then
        Except.error { status_code := 500, detail := "OpenAI API key not configured." }
      else Except.ok k

/-- One run line of the assistant context (main.py line 144). -/
def runLine (run : RunRow) : String :=
  "  Run ID: " ++ run.run_id ++ ", Status: " ++ run.status ++
    ", Metrics: " ++ run.metrics ++ ", Parameters: " ++ run.params ++ "\n"

/-- The per-experiment header line of the context (main.py line 141). -/
def expHeader (exp : StoreExperiment) : String :=
  "Experiment: " ++ exp.name ++ " (ID: " ++ exp.experiment_id ++ ")\n"

/-- Python str.strip() with no argument: remove whitespace characters from
both ends of the string. -/
def pyStrip (s : String) : String :=
  ⟨((s.data.dropWhile Char.isWhitespace).reverse.dropWhile Char.isWhitespace).reverse⟩

/-- Concatenation of the renderings of a list of items. -/
def concatMap (g : α → String) : List α → String
  | [] => ""
  | a :: l => g a ++ concatMap g l

/-- The experiment loop of assistant_query (main.py lines 140-144): threads
the context string and the call trace through the experiments in listing
order; a failing search-runs call aborts the request with the
message of the collaborator and the trace made so far. -/
def buildContext (searchRunsF : String → Except String (List RunRow)) :
    List StoreExperiment → String → List CollabCall →
    Except (String × List CollabCall) (String × List CollabCall)
  | [], acc, tr => Except.ok (acc, tr)
  | exp :: rest, acc, tr =>
      match searchRunsF exp.experiment_id with
      | Except.error e =>
          Except.error (e, tr ++ [CollabCall.searchRuns exp.experiment_id])
      | Except.ok runs =>
          buildContext searchRunsF rest
            (acc ++ expHeader exp ++ concatMap runLine runs)
            (tr ++ [CollabCall.searchRuns exp.experiment_id])

/-- Handler of POST /assistant/query (main.py lines 134-156).  The
credential dependency runs first; then one list-experiments call, one
search-runs call per experiment, prompt assembly, and a single completion
call with engine text-davinci-003, max_tokens 150 and temperature 0.7.
The empty-choices access response.choices[0] is modelled by head?, whose
failure surfaces like any other exception in the try block. -/
def assistant_query (env_key : Option String)
    (callList : Except String (List StoreExperiment))
    (searchRunsF : String → Except String (List RunRow))
    (completion : String → Except String CompletionResponse)
    (query : AssistantQuery) :
    Except HTTPError AssistantResponse × List CollabCall :=
  match get_openai_api_key env_key with
  | Except.error e => (Except.error e, [])
  | Except.ok _api_key =>
    match callList with
    | Except.error e =>
        (Except.error { status_code := 500, detail := e }, [CollabCall.listExperiments])
    | Except.ok experiments =>
      match buildContext searchRunsF experiments
          "Here is the current experiment and run data:\n" [CollabCall.listExperiments] with
      | Except.error (e, tr) => (Except.error { status_code := 500, detail := e }, tr)
      | Except.ok (context, tr) =>
        let full_prompt := context ++ "\nUser Query: " ++ query.prompt ++ "\nAnswer:"
        let tr := tr ++ [CollabCall.completionCreate "text-davinci-003" full_prompt 150 0.7]
        match completion full_prompt with
        | Except.error e => (Except.error { status_code := 500, detail := e }, tr)
        | Except.ok response =>
          match response.choices.head? with
          | none => (Except.error { status_code := 500, detail := "list index out of range" }, tr)
          | some choice => (Except.ok { response := pyStrip choice.text }, tr)

/-- The context block contributed by one experiment paired with its run
rows: the experiment header line, then one line per run. -/
def expBlock (p : StoreExperiment × List RunRow) : String :=
  expHeader p.1 ++ concatMap runLine p.2

/-- The full context for a snapshot of experiments with their runs: the
fixed header line, then one block per experiment in listing order. -/
def contextOf (snapshot : List (StoreExperiment × List RunRow)) : String :=
  "Here is the current experiment and run data:\n" ++ concatMap expBlock snapshot

/-- The full prompt for a snapshot and a question. -/
def promptOf (snapshot : List (StoreExperiment × List RunRow)) (q : String) : String :=
  contextOf snapshot ++ "\nUser Query: " ++ q ++ "\nAnswer:"

/-- The prompts of the completion calls occurring in a trace. -/
def completionCalls : List CollabCall → List String
  | [] => []
  | CollabCall.completionCreate _ p _ _ :: tr => p :: completionCalls tr
  | _ :: tr => completionCalls tr

/-- The completion-call entries of a trace (arguments included). -/
def completionEntries : List CollabCall → List CollabCall
  | [] => []
  | CollabCall.completionCreate eng p mt t :: tr =>
      CollabCall.completionCreate eng p mt t :: completionEntries tr
  | _ :: tr => completionEntries tr

/-- Modelled from the spec: the in-memory state of the external
persistence collaborator (the experiment-tracking store is out of src/;
spec section 3 gives its entities, section 4.1 its operation contract). -/
structure StoreState where
  experiments : List StoreExperiment
  runs : List StoreRun
deriving Repr, DecidableEq

/-- Overwrite-or-append update of an association list (spec section 3:
logging an existing key again overwrites the value). -/
def upsert (k : String) (v : α) : List (String × α) → List (String × α)
  | [] => [(k, v)]
  | p :: l => if p.1 = k then (k, v) :: l else p :: upsert k v l

/-- Modelled from the spec: the create-experiment operation of the store (spec
section 4.1: yields an ExperimentRef, rejected when the name collides).
Fresh ids are consecutive integers rendered as strings, matching the
concrete scenario of spec section 8. -/
def storeCreateExperiment (st : StoreState) (name : String)
    (_description : Option String) : Except String (String × StoreState) :=
  if st.experiments.any (fun e => e.name == name) then
    Except.error ("Experiment " ++ apos ++ name ++ apos ++ " already exists.")
  else
    let id := toString (st.experiments.length + 1)
    Except.ok (id,
      { st with experiments := st.experiments ++
          [{ experiment_id := id, name := name, artifact_location := "" }] })

/-- Modelled from the spec: the list operation of the store (spec section 4.1:
the ordered sequence of experiments, store-defined order). -/
def storeListExperiments (st : StoreState) : Except String (List StoreExperiment) :=
  Except.ok st.experiments

/-- Modelled from the spec: the message of the store for an unknown run id. -/
def runNotFound (run_id : String) : String :=
  "Run with id=" ++ run_id ++ " not found"

/-- Modelled from the spec: log a parameter on a run (spec section 4.1:
NotFound if run_id unknown; overwrite semantics if the key exists). -/
def storeLogParam (st : StoreState) (run_id key value : String) :
    Except String StoreState :=
  if st.runs.any (fun r => r.run_id == run_id) then
    Except.ok { st with runs := st.runs.map (fun r =>
      if r.run_id == run_id then { r with params := upsert key value r.params } else r) }
  else Except.error (runNotFound run_id)

/-- Modelled from the spec: log a metric on a run (spec sections 3 and
4.1: NotFound if run_id unknown; re-logging a key overwrites). -/
def storeLogMetric (st : StoreState) (run_id key : String) (value : Rat) :
    Except String StoreState :=
  if st.runs.any (fun r => r.run_id == run_id) then
    Except.ok { st with runs := st.runs.map (fun r =>
      if r.run_id == run_id then { r with metrics := upsert key value r.metrics } else r) }
  else Except.error (runNotFound run_id)

/-- Modelled from the spec: fetch a run by its run_id (the lookup the store
performs for get_run; NotFound when the id is unknown). -/
def storeGetRun (st : StoreState) (run_id : String) : Except String StoreRun :=
  match st.runs.find? (fun r => r.run_id == run_id) with
  | some r => Except.ok r
  | none => Except.error (runNotFound run_id)

/-- Names appearing in the GET /experiments/ response over a store state. -/
def listedNames (st : StoreState) : List String :=
  match (list_experiments (storeListExperiments st)).1 with
  | Except.ok resp => resp.experiments.map (fun en => en.name)
  | Except.error _ => []

/-- The parameter value for a key that GET .../runs/{run_id}/ reports over
a store state (none when the request fails or the key is absent). -/
def getRunParamValue (st : StoreState) (e rid key : String) : Option String :=
  match (get_run (storeGetRun st) e rid).1 with
  | Except.ok resp => resp.run.parameters.lookup key
  | Except.error _ => none

/-- The metric value for a key that GET .../runs/{run_id}/ reports over a
store state (none when the request fails or the key is absent). -/
def getRunMetricValue (st : StoreState) (e rid key : String) : Option Rat :=
  match (get_run (storeGetRun st) e rid).1 with
  | Except.ok resp => resp.run.metrics.lookup key
  | Except.error _ => none

theorem buildContext_ok (searchRunsF : String → Except String (List RunRow))
    (snapshot : List (StoreExperiment × List RunRow))
    (h : ∀ p ∈ snapshot, searchRunsF p.1.experiment_id = Except.ok p.2)
    (acc : String) (tr : List CollabCall) :
    buildContext searchRunsF (snapshot.map Prod.fst) acc tr =
      Except.ok (acc ++ concatMap expBlock snapshot,
        tr ++ snapshot.map (fun p => CollabCall.searchRuns p.1.experiment_id)) := by
  induction snapshot generalizing acc tr with
  | nil => simp [buildContext, concatMap]
  | cons p rest ih =>
      have hp := h p (List.mem_cons_self p rest)
      simp only [List.map_cons, buildContext, hp]
      rw [ih (fun q hq => h q (List.mem_cons_of_mem p hq))]
      simp [expBlock, concatMap, String.append_assoc]

theorem buildContext_error (searchRunsF : String → Except String (List RunRow))
    (snapshot : List (StoreExperiment × List RunRow))
    (h : ∀ p ∈ snapshot, searchRunsF p.1.experiment_id = Except.ok p.2)
    (e0 : StoreExperiment) (m : String)
    (he : searchRunsF e0.experiment_id = Except.error m)
    (rest : List StoreExperiment) (acc : String) (tr : List CollabCall) :
    buildContext searchRunsF (snapshot.map Prod.fst ++ e0 :: rest) acc tr =
      Except.error (m,
        tr ++ snapshot.map (fun p => CollabCall.searchRuns p.1.experiment_id) ++
          [CollabCall.searchRuns e0.experiment_id]) := by
  induction snapshot generalizing acc tr with
  | nil => simp [buildContext, he]
  | cons p ps ih =>
      have hp := h p (List.mem_cons_self p ps)
      simp only [List.map_cons, List.cons_append, buildContext, hp, List.append_eq]
      rw [ih (fun q hq => h q (List.mem_cons_of_mem p hq))]
      simp [List.append_assoc]

theorem assistant_query_eq (k : String) (hk : ¬ k = "")
    (snapshot : List (StoreExperiment × List RunRow))
    (searchRunsF : String → Except String (List RunRow))
    (h : ∀ p ∈ snapshot, searchRunsF p.1.experiment_id = Except.ok p.2)
    (completion : String → Except String CompletionResponse)
    (query : AssistantQuery) :
    assistant_query (some k) (Except.ok (snapshot.map Prod.fst)) searchRunsF
        completion query =
      ((match completion (promptOf snapshot query.prompt) with
        | Except.error e => Except.error { status_code := 500, detail := e }
        | Except.ok response =>
          match response.choices.head? with
          | none =>
              Except.error { status_code := 500, detail := "list index out of range" }
          | some choice => Except.ok { response := pyStrip choice.text }),
       CollabCall.listExperiments ::
         (snapshot.map (fun p => CollabCall.searchRuns p.1.experiment_id) ++
           [CollabCall.completionCreate "text-davinci-003"
             (promptOf snapshot query.prompt) 150 0.7])) := by
  simp only [assistant_query, get_openai_api_key, hk, if_false, ite_false]
  rw [buildContext_ok searchRunsF snapshot h]
  simp only [promptOf, contextOf]
  cases completion ("Here is the current experiment and run data:\n" ++
      concatMap expBlock snapshot ++ "\nUser Query: " ++ query.prompt ++ "\nAnswer:") with
  | error e => simp
  | ok response =>
      obtain ⟨choices⟩ := response
      cases choices <;> simp

theorem lookup_upsert (k : String) (v : α) (l : List (String × α)) :
    (upsert k v l).lookup k = some v := by
  induction l with
  | nil => simp [upsert, List.lookup]
  | cons p l ih =>
      obtain ⟨pk, pv⟩ := p
      by_cases hp : pk = k
      · subst hp
        simp [upsert, List.lookup]
      · have hk : ¬ k = pk := fun hh => hp hh.symm
        have hb : (k == pk) = false := beq_eq_false_iff_ne.mpr hk
        simp [upsert, List.lookup, hp, hb, ih]

theorem find?_map_upd (p : StoreRun → Bool) (g : StoreRun → StoreRun)
    (hg : ∀ r, p (g r) = p r) (l : List StoreRun) :
    (l.map (fun r => if p r then g r else r)).find? p =
      (l.find? p).map (fun r => if p r then g r else r) := by
  induction l with
  | nil => simp
  | cons a l ih =>
      by_cases ha : p a
      · simp [List.find?_cons, ha, hg]
      · simp [List.find?_cons, ha, ih]

theorem completionCalls_append (l1 l2 : List CollabCall) :
    completionCalls (l1 ++ l2) = completionCalls l1 ++ completionCalls l2 := by
  induction l1 with
  | nil => rfl
  | cons c l ih => cases c <;> simp [completionCalls, ih]

theorem completionCalls_searchRuns (l : List (StoreExperiment × List RunRow)) :
    completionCalls (l.map (fun p => CollabCall.searchRuns p.1.experiment_id)) = [] := by
  induction l with
  | nil => rfl
  | cons p l ih => simp [completionCalls, ih]

theorem completionEntries_append (l1 l2 : List CollabCall) :
    completionEntries (l1 ++ l2) =
      completionEntries l1 ++ completionEntries l2 := by
  induction l1 with
  | nil => rfl
  | cons c l ih => cases c <;> simp [completionEntries, ih]

theorem completionEntries_searchRuns (l : List (StoreExperiment × List RunRow)) :
    completionEntries (l.map (fun p => CollabCall.searchRuns p.1.experiment_id)) = [] := by
  induction l with
  | nil => rfl
  | cons p l ih => simp [completionEntries, ih]

/-- C10: the outcome of the get_run handler does not depend on its
experiment_id argument: for a fixed store collaborator and run_id, any
two experiment_id values produce identical responses and traces (the
handler passes only run_id to the store). -/
theorem get_run_ignores_experiment_id
    (callGetRun : String → Except String StoreRun) (e1 e2 rid : String) :
    get_run callGetRun e1 rid = get_run callGetRun e2 rid := rfl

/-- C3: with no completion credential configured, the assistant query
fails with the 500 configuration error and its collaborator trace is
empty — neither the persistence collaborator nor the completion
collaborator is invoked before the failure. -/
theorem assistant_unconfigured_no_calls
    (callList : Except String (List StoreExperiment))
    (searchRunsF : String → Except String (List RunRow))
    (completion : String → Except String CompletionResponse)
    (query : AssistantQuery) :
    assistant_query none callList searchRunsF completion query =
      (Except.error { status_code := 500, detail := "OpenAI API key not configured." },
       []) := rfl

/-- A store with two experiments where run r1 belongs to experiment 1. -/
def mismatchStore : StoreState :=
  { experiments :=
      [{ experiment_id := "1", name := "exp1", artifact_location := "" },
       { experiment_id := "2", name := "exp2", artifact_location := "" }],
    runs :=
      [{ run_id := "r1", experiment_id := "1", status := "FINISHED",
         start_time := 0, end_time := some 1, params := [("lr", "0.1")],
         metrics := [("accuracy", 0.92)], tags := [] }] }

/-- C1 counterexample: GetRun with mismatched ids — run r1 belongs to
experiment 1 but is requested under the (existing) experiment 2 — does
not fail with NotFound: the handler succeeds and returns the run, whose
RunRef shows the true owner 1, distinct from the requested id 2. -/
theorem get_run_mismatched_ids_still_succeeds :
    (get_run (storeGetRun mismatchStore) "2" "r1").1 =
        Except.ok { run :=
          { run_id := "r1", experiment_id := "1", status := "FINISHED",
            start_time := 0, end_time := some 1, parameters := [("lr", "0.1")],
            metrics := [("accuracy", 0.92)], tags := [] } }
      ∧ ("1" : String) ≠ "2" := ⟨rfl, by decide⟩

/-- C1 (amended): GetRun fails with the NotFound error of the store exactly
when the run_id is unknown, and otherwise returns the full RunRef; the
experiment_id argument is ignored, so mismatched ids do not cause a
failure and do not change the outcome. -/
theorem get_run_notFound_iff_run_unknown (st : StoreState) (e rid : String) :
    get_run (storeGetRun st) e rid =
      (match st.runs.find? (fun r => r.run_id == rid) with
       | some r =>
           Except.ok { run :=
             { run_id := r.run_id, experiment_id := r.experiment_id,
               status := r.status, start_time := r.start_time,
               end_time := r.end_time, parameters := r.params,
               metrics := r.metrics, tags := r.tags } }
       | none => Except.error { status_code := 400, detail := runNotFound rid },
       [CollabCall.getRun rid]) := by
  unfold get_run storeGetRun
  cases st.runs.find? (fun r => r.run_id == rid) <;> rfl

/-- The empty store state. -/
def emptyStore : StoreState := { experiments := [], runs := [] }

/-- C2 counterexample: a create request with the empty name is not
rejected by any local InvalidInput validation: the handler forwards it to
the store (one createExperiment call with name "") and, with a store that
accepts the empty name, returns an ExperimentRef for it instead of
failing. -/
theorem create_experiment_empty_name_accepted :
    create_experiment
        (fun n d => (storeCreateExperiment emptyStore n d).map Prod.fst)
        { name := "", description := none } =
      (Except.ok { experiment_id := "1", name := "" },
       [CollabCall.createExperiment "" none]) := rfl

/-- C2 (amended): CreateExperiment performs no local validation of the
name: a request with the empty name is always forwarded to the store in a
single call, and the outcome mirrors the verdict of the store — acceptance
yields an ExperimentRef for the empty name, rejection yields the single
400-class error carrying the message of the store; no distinct InvalidInput
outcome exists. -/
theorem create_experiment_empty_name_forwarded
    (callCreate : String → Option String → Except String String) :
    create_experiment callCreate { name := "", description := none } =
      (((callCreate "" none).map
          (fun id => { experiment_id := id, name := "" })).mapError
          (fun m => { status_code := 400, detail := m }),
       [CollabCall.createExperiment "" none]) := by
  unfold create_experiment
  cases callCreate "" none <;> rfl

/-- C6: a successful CreateExperiment followed by ListExperiments yields
an entry whose name equals the created name exactly: over the store model,
when the store accepts the create request the handler returns the new
ExperimentRef, and the listing over the updated store contains the
requested name character for character. -/
theorem create_then_list_contains_name (st : StoreState)
    (req : ExperimentCreate) (id : String) (st1 : StoreState)
    (hcreate : storeCreateExperiment st req.name req.description =
      Except.ok (id, st1)) :
    (create_experiment
        (fun n d => (storeCreateExperiment st n d).map Prod.fst) req).1 =
        Except.ok { experiment_id := id, name := req.name }
      ∧ req.name ∈ listedNames st1 := by
  unfold storeCreateExperiment at hcreate
  by_cases hcoll : st.experiments.any (fun e => e.name == req.name)
  · rw [if_pos hcoll] at hcreate
    exact absurd hcreate (by simp)
  · rw [if_neg hcoll] at hcreate
    simp only [Except.ok.injEq, Prod.mk.injEq] at hcreate
    obtain ⟨hid, hst⟩ := hcreate
    constructor
    · unfold create_experiment storeCreateExperiment
      dsimp only
      rw [if_neg hcoll]
      simp [hid, Except.map]
    · subst hst
      simp [listedNames, list_experiments, storeListExperiments]

theorem storeLogParam_find (stA stB : StoreState) (rid k v : String)
    (h : storeLogParam stA rid k v = Except.ok stB) :
    ∃ r0 : StoreRun, stB.runs.find? (fun r => r.run_id == rid) =
      some { r0 with params := upsert k v r0.params } := by
  unfold storeLogParam at h
  by_cases hany : stA.runs.any (fun r => r.run_id == rid)
  · rw [if_pos hany] at h
    simp only [Except.ok.injEq] at h
    subst h
    have hfind : (stA.runs.find? (fun r => r.run_id == rid)).isSome := by
      rw [List.find?_isSome]
      simpa [List.any_eq_true] using hany
    obtain ⟨r1, hr1⟩ := Option.isSome_iff_exists.mp hfind
    have hp1 : (r1.run_id == rid) = true := by
      simpa using List.find?_some hr1
    refine ⟨r1, ?_⟩
    show (stA.runs.map (fun r =>
        if r.run_id == rid then { r with params := upsert k v r.params } else r)).find?
          (fun r => r.run_id == rid) = _
    rw [find?_map_upd (fun r => r.run_id == rid)
      (fun r => { r with params := upsert k v r.params }) (fun r => rfl) stA.runs, hr1]
    simp [hp1]
    intro hne
    exact absurd (by simpa using hp1) hne
  · rw [if_neg hany] at h
    exact absurd h (by simp)

theorem storeLogMetric_find (stA stB : StoreState) (rid k : String) (v : Rat)
    (h : storeLogMetric stA rid k v = Except.ok stB) :
    ∃ r0 : StoreRun, stB.runs.find? (fun r => r.run_id == rid) =
      some { r0 with metrics := upsert k v r0.metrics } := by
  unfold storeLogMetric at h
  by_cases hany : stA.runs.any (fun r => r.run_id == rid)
  · rw [if_pos hany] at h
    simp only [Except.ok.injEq] at h
    subst h
    have hfind : (stA.runs.find? (fun r => r.run_id == rid)).isSome := by
      rw [List.find?_isSome]
      simpa [List.any_eq_true] using hany
    obtain ⟨r1, hr1⟩ := Option.isSome_iff_exists.mp hfind
    have hp1 : (r1.run_id == rid) = true := by
      simpa using List.find?_some hr1
    refine ⟨r1, ?_⟩
    show (stA.runs.map (fun r =>
        if r.run_id == rid then { r with metrics := upsert k v r.metrics } else r)).find?
          (fun r => r.run_id == rid) = _
    rw [find?_map_upd (fun r => r.run_id == rid)
      (fun r => { r with metrics := upsert k v r.metrics }) (fun r => rfl) stA.runs, hr1]
    simp [hp1]
    intro hne
    exact absurd (by simpa using hp1) hne
  · rw [if_neg hany] at h
    exact absurd h (by simp)

/-- C7: last write wins on repeated logging: after LogParam with the same
key twice (values pv1 then pv2) on an existing run, GetRun reports pv2
for that key, and after LogMetric with the same key twice (values mv1
then mv2), GetRun reports mv2 — the second value overwrites the first,
with no accumulation of both. -/
theorem log_twice_last_write_wins (st st1 st2 st3 st4 : StoreState)
    (rid pk pv1 pv2 mk : String) (mv1 mv2 : Rat) (e : String)
    (h1 : storeLogParam st rid pk pv1 = Except.ok st1)
    (h2 : storeLogParam st1 rid pk pv2 = Except.ok st2)
    (h3 : storeLogMetric st2 rid mk mv1 = Except.ok st3)
    (h4 : storeLogMetric st3 rid mk mv2 = Except.ok st4) :
    getRunParamValue st2 e rid pk = some pv2 ∧
      getRunMetricValue st4 e rid mk = some mv2 := by
  obtain ⟨r2, hr2⟩ := storeLogParam_find st1 st2 rid pk pv2 h2
  obtain ⟨r4, hr4⟩ := storeLogMetric_find st3 st4 rid mk mv2 h4
  constructor
  · simp [getRunParamValue, get_run, storeGetRun, hr2, lookup_upsert]
  · simp [getRunMetricValue, get_run, storeGetRun, hr4, lookup_upsert]

/-- C4: the prompt sent to the completion collaborator is exactly the
header line, then per experiment in listing order its header line and one
line per run in the fixed format, then the user-query suffix — that is,
promptOf of the snapshot (promptOf, contextOf, expBlock, expHeader and
runLine spell out those format strings); the completion collaborator
receives exactly this one prompt, and with zero experiments the context
is exactly the header line. -/
theorem assistant_prompt_format (k : String) (hk : ¬ k = "")
    (snapshot : List (StoreExperiment × List RunRow))
    (searchRunsF : String → Except String (List RunRow))
    (h : ∀ p ∈ snapshot, searchRunsF p.1.experiment_id = Except.ok p.2)
    (completion : String → Except String CompletionResponse)
    (query : AssistantQuery) :
    completionCalls
        (assistant_query (some k) (Except.ok (snapshot.map Prod.fst)) searchRunsF
          completion query).2 = [promptOf snapshot query.prompt]
      ∧ contextOf [] = "Here is the current experiment and run data:\n" := by
  rw [assistant_query_eq k hk snapshot searchRunsF h completion query]
  constructor
  · simp [completionCalls, completionCalls_append, completionCalls_searchRuns]
  · simp [contextOf, concatMap]

/-- C5: for every assembled prompt the assistant makes exactly one
completion call — with engine text-davinci-003, bounded output length
max_tokens 150 and fixed sampling temperature 0.7 — whatever the
outcome of the completion (no retry on failure), and on success it
returns the text of the first choice with surrounding whitespace trimmed. -/
theorem assistant_single_completion_call (k : String) (hk : ¬ k = "")
    (snapshot : List (StoreExperiment × List RunRow))
    (searchRunsF : String → Except String (List RunRow))
    (h : ∀ p ∈ snapshot, searchRunsF p.1.experiment_id = Except.ok p.2)
    (completion : String → Except String CompletionResponse)
    (query : AssistantQuery) :
    completionEntries
        (assistant_query (some k) (Except.ok (snapshot.map Prod.fst)) searchRunsF
          completion query).2 =
        [CollabCall.completionCreate "text-davinci-003"
          (promptOf snapshot query.prompt) 150 0.7]
      ∧ (∀ m, completion (promptOf snapshot query.prompt) = Except.error m →
          (assistant_query (some k) (Except.ok (snapshot.map Prod.fst)) searchRunsF
            completion query).1 =
            Except.error { status_code := 500, detail := m })
      ∧ (∀ response choice rest,
          completion (promptOf snapshot query.prompt) = Except.ok response →
          response.choices = choice :: rest →
          (assistant_query (some k) (Except.ok (snapshot.map Prod.fst)) searchRunsF
            completion query).1 =
            Except.ok { response := pyStrip choice.text }) := by
  rw [assistant_query_eq k hk snapshot searchRunsF h completion query]
  refine ⟨?_, ?_, ?_⟩
  · simp [completionEntries, completionEntries_append, completionEntries_searchRuns]
  · intro m hm
    simp [hm]
  · intro response choice rest hok hch
    simp [hok, hch]

/-- C8: every collaborator failure is caught at the boundary of the
operation that invoked it and converted into a client-facing error whose
detail is the original message of the collaborator: each failing CRUD
handler returns status 400 with a one-call trace, and the assistant
handler returns status 500 whichever of its collaborator calls fails —
the list-experiments call, a search-runs call reached after any number of
successful experiments, or the completion call over any snapshot — with
the trace in every case ending at the single failed attempt: no retry at
any level. -/
theorem collaborator_failures_surface (m : String) (exp : ExperimentCreate)
    (e rid : String) (run : RunCreate) (param : Param) (metric : Metric)
    (snapshot : List (StoreExperiment × List RunRow))
    (searchRunsF : String → Except String (List RunRow))
    (h : ∀ p ∈ snapshot, searchRunsF p.1.experiment_id = Except.ok p.2)
    (e0 : StoreExperiment) (rest : List StoreExperiment)
    (completion : String → Except String CompletionResponse)
    (q : AssistantQuery) (k : String) (hk : ¬ k = "") :
    create_experiment (fun _ _ => Except.error m) exp =
        (Except.error { status_code := 400, detail := m },
         [CollabCall.createExperiment exp.name exp.description])
      ∧ list_experiments (Except.error m) =
        (Except.error { status_code := 400, detail := m },
         [CollabCall.listExperiments])
      ∧ start_run (fun _ _ => Except.error m) e run =
        (Except.error { status_code := 400, detail := m },
         [CollabCall.startRun e run.run_name])
      ∧ log_param (fun _ _ _ => Except.error m) rid param =
        (Except.error { status_code := 400, detail := m },
         [CollabCall.logParam rid param.key param.value])
      ∧ log_metric (fun _ _ _ => Except.error m) rid metric =
        (Except.error { status_code := 400, detail := m },
         [CollabCall.logMetric rid metric.key metric.value])
      ∧ get_run (fun _ => Except.error m) e rid =
        (Except.error { status_code := 400, detail := m },
         [CollabCall.getRun rid])
      ∧ assistant_query (some k) (Except.error m) searchRunsF completion q =
        (Except.error { status_code := 500, detail := m },
         [CollabCall.listExperiments])
      ∧ assistant_query (some k) (Except.ok []) searchRunsF
          (fun _ => Except.error m) q =
        (Except.error { status_code := 500, detail := m },
         [CollabCall.listExperiments,
          CollabCall.completionCreate "text-davinci-003"
            ("Here is the current experiment and run data:\n" ++ "\nUser Query: " ++
              q.prompt ++ "\nAnswer:") 150 0.7])
      ∧ (searchRunsF e0.experiment_id = Except.error m →
          assistant_query (some k)
              (Except.ok (snapshot.map Prod.fst ++ e0 :: rest)) searchRunsF
              completion q =
            (Except.error { status_code := 500, detail := m },
             CollabCall.listExperiments ::
               (snapshot.map (fun p => CollabCall.searchRuns p.1.experiment_id) ++
                 [CollabCall.searchRuns e0.experiment_id])))
      ∧ (completion (promptOf snapshot q.prompt) = Except.error m →
          assistant_query (some k) (Except.ok (snapshot.map Prod.fst)) searchRunsF
              completion q =
            (Except.error { status_code := 500, detail := m },
             CollabCall.listExperiments ::
               (snapshot.map (fun p => CollabCall.searchRuns p.1.experiment_id) ++
                 [CollabCall.completionCreate "text-davinci-003"
                   (promptOf snapshot q.prompt) 150 0.7]))) := by
  refine ⟨rfl, rfl, rfl, rfl, rfl, rfl, ?_, ?_, ?_, ?_⟩
  · simp [assistant_query, get_openai_api_key, hk]
  · simp [assistant_query, get_openai_api_key, hk, buildContext]
  · intro he
    simp only [assistant_query, get_openai_api_key, hk, if_false, ite_false]
    rw [buildContext_error searchRunsF snapshot h e0 m he rest]
    simp
  · intro hcm
    rw [assistant_query_eq k hk snapshot searchRunsF h completion q]
    simp [hcm]

/-- C9: prompt assembly is deterministic: two executions over the same
snapshot collaborators and the same question produce identical
collaborator-call traces — in particular byte-identical assembled prompts
in their completion calls — independently of the credential value and of
the behaviour of the completion collaborator. -/
theorem assistant_trace_deterministic (k1 k2 : String)
    (h1 : ¬ k1 = "") (h2 : ¬ k2 = "")
    (callList : Except String (List StoreExperiment))
    (searchRunsF : String → Except String (List RunRow))
    (completion1 completion2 : String → Except String CompletionResponse)
    (query : AssistantQuery) :
    (assistant_query (some k1) callList searchRunsF completion1 query).2 =
      (assistant_query (some k2) callList searchRunsF completion2 query).2 := by
  simp only [assistant_query, get_openai_api_key, h1, h2, if_false, ite_false]
  cases callList with
  | error e => rfl
  | ok experiments =>
      dsimp only
      generalize buildContext searchRunsF experiments
        "Here is the current experiment and run data:\n"
        [CollabCall.listExperiments] = bc
      cases bc with
      | error p => obtain ⟨e, tr⟩ := p; rfl
      | ok p =>
          obtain ⟨context, tr⟩ := p
          dsimp only
          cases completion1 (context ++ "\nUser Query: " ++ query.prompt ++ "\nAnswer:") with
          | error e1 =>
              cases completion2 (context ++ "\nUser Query: " ++ query.prompt ++ "\nAnswer:") with
              | error e2 => rfl
              | ok r2 =>
                  obtain ⟨ch2⟩ := r2
                  cases ch2 <;> rfl
          | ok r1 =>
              obtain ⟨ch1⟩ := r1
              cases completion2 (context ++ "\nUser Query: " ++ query.prompt ++ "\nAnswer:") with
              | error e2 => cases ch1 <;> rfl
              | ok r2 =>
                  obtain ⟨ch2⟩ := r2
                  cases ch1 <;> cases ch2 <;> rfl

/-- A concrete experiment used by witness instantiations. -/
def wExp : StoreExperiment :=
  { experiment_id := "1", name := "exp1", artifact_location := "" }

/-- A concrete run row used by witness instantiations. -/
def wRow : RunRow :=
  { run_id := "r1", status := "FINISHED", metrics := "accuracy=0.92",
    params := "lr=0.1" }

/-- A concrete one-experiment snapshot used by witness instantiations. -/
def wSnapshot : List (StoreExperiment × List RunRow) := [(wExp, [wRow])]

/-- A search-runs collaborator consistent with wSnapshot. -/
def wSearch : String → Except String (List RunRow) := fun _ => Except.ok [wRow]

/-- A completion collaborator returning one choice with padded text. -/
def wCompletion : String → Except String CompletionResponse :=
  fun _ => Except.ok { choices := [{ text := "  All good.  " }] }

theorem wSearch_ok : ∀ p ∈ wSnapshot, wSearch p.1.experiment_id = Except.ok p.2 := by
  intro p hp
  rw [wSnapshot, List.mem_singleton] at hp
  subst hp
  rfl

/-- C4 witness: the prompt-format theorem instantiated at one experiment
with one run and a concrete question. -/
theorem assistant_prompt_format_witness :
    (completionCalls
        (assistant_query (some "sk-test") (Except.ok (wSnapshot.map Prod.fst)) wSearch
          wCompletion { prompt := "Why?" }).2 = [promptOf wSnapshot "Why?"]
      ∧ contextOf [] = "Here is the current experiment and run data:\n") :=
  assistant_prompt_format "sk-test" (by decide) wSnapshot wSearch wSearch_ok
    wCompletion { prompt := "Why?" }

/-- C5 witness: the single-completion-call theorem instantiated at one
experiment with one run; the padded answer text comes back trimmed. -/
theorem assistant_single_completion_call_witness :
    (completionEntries
        (assistant_query (some "sk-test") (Except.ok (wSnapshot.map Prod.fst)) wSearch
          wCompletion { prompt := "Why?" }).2 =
        [CollabCall.completionCreate "text-davinci-003" (promptOf wSnapshot "Why?") 150 0.7]
      ∧ (assistant_query (some "sk-test") (Except.ok (wSnapshot.map Prod.fst)) wSearch
          wCompletion { prompt := "Why?" }).1 =
        Except.ok { response := "All good." }) :=
  ⟨(assistant_single_completion_call "sk-test" (by decide) wSnapshot wSearch wSearch_ok
      wCompletion { prompt := "Why?" }).1,
   (assistant_single_completion_call "sk-test" (by decide) wSnapshot wSearch wSearch_ok
      wCompletion { prompt := "Why?" }).2.2
     { choices := [{ text := "  All good.  " }] } { text := "  All good.  " } [] rfl rfl⟩

/-- C6 witness: creating exp1 in the empty store and listing afterwards
yields the name exp1. -/
theorem create_then_list_contains_name_witness :
    ((create_experiment
        (fun n d => (storeCreateExperiment emptyStore n d).map Prod.fst)
        { name := "exp1", description := none }).1 =
        Except.ok { experiment_id := "1", name := "exp1" }
      ∧ "exp1" ∈ listedNames
        { experiments := [{ experiment_id := "1", name := "exp1", artifact_location := "" }],
          runs := [] }) :=
  create_then_list_contains_name emptyStore { name := "exp1", description := none } "1"
    { experiments := [{ experiment_id := "1", name := "exp1", artifact_location := "" }],
      runs := [] } rfl

/-- A concrete fresh run used by the last-write-wins witness. -/
def c7Run0 : StoreRun :=
  { run_id := "r1", experiment_id := "1", status := "RUNNING",
    start_time := 0, end_time := none, params := [], metrics := [], tags := [] }

/-- The witness store before any logging. -/
def c7St0 : StoreState :=
  { experiments := [{ experiment_id := "1", name := "exp1", artifact_location := "" }],
    runs := [c7Run0] }

/-- The witness store after LogParam lr=0.1. -/
def c7St1 : StoreState :=
  { c7St0 with runs := [{ c7Run0 with params := [("lr", "0.1")] }] }

/-- The witness store after LogParam lr=0.2 (overwrite). -/
def c7St2 : StoreState :=
  { c7St0 with runs := [{ c7Run0 with params := [("lr", "0.2")] }] }

/-- The witness store after LogMetric accuracy=0.5. -/
def c7St3 : StoreState :=
  { c7St0 with
    runs := [{ c7Run0 with params := [("lr", "0.2")], metrics := [("accuracy", 0.5)] }] }

/-- The witness store after LogMetric accuracy=0.92 (overwrite). -/
def c7St4 : StoreState :=
  { c7St0 with
    runs := [{ c7Run0 with params := [("lr", "0.2")], metrics := [("accuracy", 0.92)] }] }

/-- C7 witness: logging lr twice (0.1 then 0.2) and accuracy twice (0.5
then 0.92) on run r1 leaves GetRun reporting lr=0.2 and accuracy=0.92. -/
theorem log_twice_last_write_wins_witness :
    (getRunParamValue c7St2 "1" "r1" "lr" = some "0.2"
      ∧ getRunMetricValue c7St4 "1" "r1" "accuracy" = some 0.92) :=
  log_twice_last_write_wins c7St0 c7St1 c7St2 c7St3 c7St4 "r1" "lr" "0.1" "0.2"
    "accuracy" 0.5 0.92 "1" rfl rfl rfl rfl

/-- An experiment whose search-runs call the partial collaborator rejects. -/
def wExp9 : StoreExperiment :=
  { experiment_id := "9", name := "exp9", artifact_location := "" }

/-- A search-runs collaborator that succeeds on experiment 1 and fails on
experiment 9 with the message used by the failure witnesses. -/
def wSearchPartial : String → Except String (List RunRow) :=
  fun eid => if eid = "9" then Except.error "store down" else Except.ok [wRow]

/-- A completion collaborator that always fails. -/
def wFailCompletion : String → Except String CompletionResponse :=
  fun _ => Except.error "store down"

theorem wSearchPartial_ok :
    ∀ p ∈ wSnapshot, wSearchPartial p.1.experiment_id = Except.ok p.2 := by
  intro p hp
  rw [wSnapshot, List.mem_singleton] at hp
  subst hp
  rfl

/-- C8 witness: the failure-surfacing theorem instantiated at the message
"store down" and concrete requests, with the search-runs failure hit after
one successful experiment and the completion failure hit over the
one-experiment snapshot. -/
theorem collaborator_failures_surface_witness :
    (create_experiment (fun _ _ => Except.error "store down")
        { name := "exp1", description := none } =
        (Except.error { status_code := 400, detail := "store down" },
         [CollabCall.createExperiment "exp1" none])
      ∧ list_experiments (Except.error "store down") =
        (Except.error { status_code := 400, detail := "store down" },
         [CollabCall.listExperiments])
      ∧ start_run (fun _ _ => Except.error "store down") "1" { run_name := none } =
        (Except.error { status_code := 400, detail := "store down" },
         [CollabCall.startRun "1" none])
      ∧ log_param (fun _ _ _ => Except.error "store down") "r1"
          { key := "lr", value := "0.1" } =
        (Except.error { status_code := 400, detail := "store down" },
         [CollabCall.logParam "r1" "lr" "0.1"])
      ∧ log_metric (fun _ _ _ => Except.error "store down") "r1"
          { key := "accuracy", value := 0.92 } =
        (Except.error { status_code := 400, detail := "store down" },
         [CollabCall.logMetric "r1" "accuracy" 0.92])
      ∧ get_run (fun _ => Except.error "store down") "1" "r1" =
        (Except.error { status_code := 400, detail := "store down" },
         [CollabCall.getRun "r1"])
      ∧ assistant_query (some "sk-test") (Except.error "store down") wSearchPartial
          wFailCompletion { prompt := "Why?" } =
        (Except.error { status_code := 500, detail := "store down" },
         [CollabCall.listExperiments])
      ∧ assistant_query (some "sk-test") (Except.ok []) wSearchPartial
          (fun _ => Except.error "store down") { prompt := "Why?" } =
        (Except.error { status_code := 500, detail := "store down" },
         [CollabCall.listExperiments,
          CollabCall.completionCreate "text-davinci-003"
            ("Here is the current experiment and run data:\n" ++ "\nUser Query: " ++
              "Why?" ++ "\nAnswer:") 150 0.7])
      ∧ assistant_query (some "sk-test")
          (Except.ok (wSnapshot.map Prod.fst ++ wExp9 :: [])) wSearchPartial
          wFailCompletion { prompt := "Why?" } =
        (Except.error { status_code := 500, detail := "store down" },
         CollabCall.listExperiments ::
           (wSnapshot.map (fun p => CollabCall.searchRuns p.1.experiment_id) ++
             [CollabCall.searchRuns "9"]))
      ∧ assistant_query (some "sk-test") (Except.ok (wSnapshot.map Prod.fst))
          wSearchPartial wFailCompletion { prompt := "Why?" } =
        (Except.error { status_code := 500, detail := "store down" },
         CollabCall.listExperiments ::
           (wSnapshot.map (fun p => CollabCall.searchRuns p.1.experiment_id) ++
             [CollabCall.completionCreate "text-davinci-003"
               (promptOf wSnapshot "Why?") 150 0.7]))) := by
  have base := collaborator_failures_surface "store down"
    { name := "exp1", description := none } "1" "r1" { run_name := none }
    { key := "lr", value := "0.1" } { key := "accuracy", value := 0.92 }
    wSnapshot wSearchPartial wSearchPartial_ok wExp9 [] wFailCompletion
    { prompt := "Why?" } "sk-test" (by decide)
  exact ⟨base.1, base.2.1, base.2.2.1, base.2.2.2.1, base.2.2.2.2.1,
    base.2.2.2.2.2.1, base.2.2.2.2.2.2.1, base.2.2.2.2.2.2.2.1,
    base.2.2.2.2.2.2.2.2.1 rfl, base.2.2.2.2.2.2.2.2.2 rfl⟩

/-- C9 witness: the determinism theorem instantiated at two different
credentials and two completion collaborators, one failing. -/
theorem assistant_trace_deterministic_witness :
    (assistant_query (some "key-one") (Except.ok (wSnapshot.map Prod.fst)) wSearch
        wCompletion { prompt := "Why?" }).2 =
      (assistant_query (some "key-two") (Except.ok (wSnapshot.map Prod.fst)) wSearch
        (fun _ => Except.error "completion down") { prompt := "Why?" }).2 :=
  assistant_trace_deterministic "key-one" "key-two" (by decide) (by decide)
    (Except.ok (wSnapshot.map Prod.fst)) wSearch wCompletion
    (fun _ => Except.error "completion down") { prompt := "Why?" }
